import Mathlib

/-!
# Tri-state optional values (package `gov`)

A shallow embedding of the two designs of the tri-state container found in the
repository, `gov.go` (namespace `GovGo`) and `value.go` (namespace `ValueGo`),
followed by theorems about them.

Conventions of the embedding.

* `State` is Go's `uint8`, hence `Fin 256`; the three named constants are `0`, `1`, `2`
  (`iota`).
* A container is the pair of its two fields.  Methods with a pointer receiver
  return the updated container (state passing); a Go `error` result is an
  `Option Error`, `none` being Go's `nil`.
* The zero value of `T` is `default` of an `Inhabited T` instance, so a
  zero-initialised container is `default : Value T`.
* A Go pointer `*T` that is only tested against `nil` and dereferenced is an
  `Option T`.
* The external collaborators (the JSON engine and the `database/sql` layer) are
  parameters: the container code is embedded over arbitrary engines.
-/

set_option linter.dupNamespace false

/-- One byte of a Go byte slice. -/
abbrev Byte := Fin 256

/-- Go `[]byte`, compared with `bytes.Equal` (element-wise, so `nil` and the empty slice agree). -/
abbrev Bytes := List Byte

/-- A non-nil Go `error`. -/
abbrev Error := String

/-- The JSON engine at type `T`: `json.Marshal(x)` returns bytes and an error;
`json.Unmarshal(data, &x)` decodes into an existing `x`, so it is given the
current content of the target and returns the content afterwards (which may be
modified even when an error is reported) together with the error. -/
structure JSONEngine (T : Type) where
  Marshal : T → Bytes × Option Error
  Unmarshal : Bytes → T → T × Option Error

/-- The engine is lossless on `T`: for every `v`, encoding `v` succeeds and
decoding the produced bytes into a fresh (zero) target succeeds and stores `v`. -/
def JSONEngine.Lossless {T : Type} [Inhabited T] (eng : JSONEngine T) : Prop :=
  ∀ v : T, (eng.Marshal v).2 = none ∧ eng.Unmarshal (eng.Marshal v).1 default = (v, none)

/-- Go `sql.Null[T]`: the struct with fields `V` and `Valid`. -/
structure SqlNull (T : Type) where
  V : T
  Valid : Bool

/-- The relational driver layer seen from the container, for a payload type `T`,
non-nil scan sources `S` and non-nil driver values `D` (a `driver.Value` is an
`Option D`, `none` being `nil`).

* `NullScan src` is `s.Scan(src)` on a fresh `var s sql.Null[T]` with a non-nil `src`:
  the content of `s` afterwards and the error.
* `Valuer x` is the type assertion `any(x).(driver.Valuer)`: `none` when it fails,
  otherwise the result of `valuer.Value()`.
* `ConvertValue x` is `driver.DefaultParameterConverter.ConvertValue(any(x))`. -/
structure DriverLayer (T S D : Type) where
  NullScan : S → SqlNull T × Option Error
  Valuer : T → Option (Option D × Option Error)
  ConvertValue : T → Option D × Option Error

/-! ## `gov.go` -/

namespace GovGo

/-- Go `type State uint8`. -/
abbrev State := Fin 256

/-- Go `var nullValue = []byte{'n', 'u', 'l', 'l'}`. -/
def nullValue : Bytes := [110, 117, 108, 108]

abbrev StateNone : State := 0
abbrev StateNil : State := 1
abbrev StateFilled : State := 2

/-- Go `type Value[T any] struct { state State; value T }`. -/
structure Value (T : Type) where
  state : State
  value : T
deriving DecidableEq

/-- The zero-initialised container (`var v Value[T]`, `Value[T]{}`). -/
instance {T : Type} [Inhabited T] : Inhabited (Value T) :=
  ⟨{ state := 0, value := default }⟩

variable {T S D : Type}

def Value.Present (v : Value T) : Bool :=
  v.state != StateNone

def Value.Filled (v : Value T) : Bool :=
  v.state == StateFilled

def Value.Nil (v : Value T) : Bool :=
  v.state == StateNil

def Value.IsZero (v : Value T) : Bool :=
  !v.Present

def Value.MarshalJSON (eng : JSONEngine T) (v : Value T) : Bytes × Option Error :=
  if !v.Filled then
    (nullValue, none)
  else
    eng.Marshal v.value

/-- Pointer receiver: returns the container afterwards and the error.  On a
decoding error the state is untouched but the payload is whatever the engine
left in `v.value`. -/
def Value.UnmarshalJSON (eng : JSONEngine T) (v : Value T) (data : Bytes) :
    Value T × Option Error :=
  if data = nullValue then
    ({ v with state := StateNil }, none)
  else
    match eng.Unmarshal data v.value with
    | (w, some err) => ({ v with value := w }, some err)
    | (w, none) => ({ state := StateFilled, value := w }, none)

/-- Pointer receiver; `src` is `none` for Go's `src == nil`. -/
def Value.Scan (drv : DriverLayer T S D) (v : Value T) (src : Option S) :
    Value T × Option Error :=
  match src with
  | none => ({ v with state := StateNil }, none)
  | some x =>
    match drv.NullScan x with
    | (_, some err) => (v, some err)
    | (s, none) =>
      if !s.Valid then
        ({ v with state := StateNil }, none)
      else
        ({ state := StateFilled, value := s.V }, none)

/-- The unnamed results are zero-initialised, so the bare `return` yields `(zero, false)`. -/
def Value.Get [Inhabited T] (v : Value T) : T × Bool :=
  if v.Filled then
    (v.value, true)
  else
    (default, false)

def Value.GetOrZero [Inhabited T] (v : Value T) : T :=
  if v.Filled then
    v.value
  else
    default

def Value.GetOr [Inhabited T] (v : Value T) (fallback : T) : T :=
  match v.Get with
  | (result, ok) =>
    if !ok then
      fallback
    else
      result

def Value.AsPointer (v : Value T) : Option T :=
  if v.Filled then
    some v.value
  else
    none

def None [Inhabited T] : Value T :=
  { state := 0, value := default }

def Nil [Inhabited T] : Value T :=
  { state := StateNil, value := default }

def Filled (value : T) : Value T :=
  { state := StateFilled, value := value }

/-- The variadic `noneOnNil ...bool` is the list of the flags passed. -/
def Pointer [Inhabited T] (ptr : Option T) (noneOnNil : List Bool) : Value T :=
  let nof : Bool := if h : noneOnNil.length > 0 then noneOnNil[0] else false
  match ptr with
  | none =>
    let state : State := if nof then StateNone else StateNil
    { state := state, value := default }
  | some p => Filled p

def When [Inhabited T] (value : T) (ok : Bool) (noneOnFalse : List Bool) : Value T :=
  if ok then
    Filled value
  else
    Pointer none noneOnFalse

/-- Go method `Value()` (the `driver.Valuer` implementation of the container). -/
def Value.Value (drv : DriverLayer T S D) (v : GovGo.Value T) : Option D × Option Error :=
  if v.Nil then
    (none, none)
  else
    match drv.Valuer v.value with
    | some r => r
    | none => drv.ConvertValue v.value

/-- Go method `State()`. -/
def Value.State (v : GovGo.Value T) : GovGo.State :=
  v.state

end GovGo

/-! ## `value.go` -/

namespace ValueGo

/-- Go `type State uint8`. -/
abbrev State := Fin 256

/-- Go `jsonNull = []byte("null")`: the four bytes `n`, `u`, `l`, `l`. -/
def jsonNull : Bytes := [110, 117, 108, 108]

abbrev StateNotSet : State := 0
abbrev StateNull : State := 1
abbrev StateValue : State := 2

/-- Go `type Value[T any] struct { state State; value T }`. -/
structure Value (T : Type) where
  state : State
  value : T
deriving DecidableEq

/-- The zero-initialised container (`var v Value[T]`, `Value[T]{}`). -/
instance {T : Type} [Inhabited T] : Inhabited (Value T) :=
  ⟨{ state := 0, value := default }⟩

variable {T S D : Type}

def Value.IsZero (v : Value T) : Bool :=
  v.state == StateNotSet

def Value.IsNull (v : Value T) : Bool :=
  v.state == StateNull

def Value.IsSet (v : Value T) : Bool :=
  v.state == StateValue

def Value.Valid (v : Value T) : Bool :=
  v.IsNull || v.IsSet

def Value.GetOrZero [Inhabited T] (v : Value T) : T :=
  if v.Valid then
    v.value
  else
    default

/-- Pointer receiver: the state becomes `StateValue` before the engine is
called, and the engine's error (or `nil`) is returned as it is. -/
def Value.UnmarshalJSON (eng : JSONEngine T) (v : Value T) (data : Bytes) :
    Value T × Option Error :=
  if data = jsonNull then
    ({ v with state := StateNull }, none)
  else
    match eng.Unmarshal data v.value with
    | (w, err) => ({ state := StateValue, value := w }, err)

def Value.MarshalJSON (eng : JSONEngine T) (v : Value T) : Bytes × Option Error :=
  if v.IsNull || !v.IsSet then
    (jsonNull, none)
  else
    eng.Marshal v.value

/-- Pointer receiver: only the state field is assigned. -/
def Value.Null (v : Value T) : Value T :=
  { v with state := StateNull }

/-- Pointer receiver: only the state field is assigned. -/
def Value.Reset (v : Value T) : Value T :=
  { v with state := StateNotSet }

/-- Pointer receiver. -/
def Value.Set (v : Value T) (value : T) : Value T :=
  { v with state := StateValue, value := value }

/-- Pointer receiver; `ptr` is `none` for Go's `ptr == nil`. -/
def Value.SetPtr (v : Value T) (ptr : Option T) : Value T :=
  match ptr with
  | none => v.Null
  | some p => v.Set p

/-- Pointer receiver; `src` is `none` for Go's `src == nil`. -/
def Value.Scan (drv : DriverLayer T S D) (v : Value T) (src : Option S) :
    Value T × Option Error :=
  match src with
  | none => (v.Null, none)
  | some x =>
    match drv.NullScan x with
    | (_, some err) => (v, some err)
    | (s, none) =>
      if !s.Valid then
        (v.Null, none)
      else
        (v.Set s.V, none)

def Value.MustGet (v : Value T) : T :=
  v.value

/-- The unnamed first result is zero-initialised, so the bare `return` yields `(zero, false)`. -/
def Value.Get [Inhabited T] (v : Value T) : T × Bool :=
  if v.state != StateValue then
    (default, false)
  else
    (v.value, true)

def Value.GetOr (v : Value T) (fallback : T) : T :=
  if !v.Valid then
    fallback
  else
    v.value

def EmptyValue [Inhabited T] : Value T :=
  { state := StateNotSet, value := default }

def From (val : T) : Value T :=
  { state := StateValue, value := val }

/-- `ptr` is `none` for Go's `ptr == nil`; `nilState` is any `State` the caller passes. -/
def FromPtr [Inhabited T] (ptr : Option T) (nilState : State) : Value T :=
  match ptr with
  | none => { state := nilState, value := default }
  | some p => From p

/-- The variadic `falseState ...State` is the list of the states passed. -/
def FromCondition [Inhabited T] (cond : Bool) (val : T) (falseState : List State) : Value T :=
  let state : State := if h : falseState.length > 0 then falseState[0] else StateNotSet
  if cond then
    From val
  else
    FromPtr none state

/-- Go `func FromBuilder[T any](fn func(val Value[T])) Value[T]`.  The callback
takes the container by value: `fn val` is what the callback's own parameter
holds when it returns, after the mutators it called on it.  Go copies the
struct at the call, so the local `val` of `FromBuilder` is not the variable the
callback mutates, and it is the local `val` that is returned. -/
def FromBuilder [Inhabited T] (fn : Value T → Value T) : Value T :=
  let val : Value T := EmptyValue
  let _callee : Value T := fn val
  val

/-- Go method `Value()` (the `driver.Valuer` implementation of the container). -/
def Value.Value (drv : DriverLayer T S D) (v : ValueGo.Value T) : Option D × Option Error :=
  if v.IsNull then
    (none, none)
  else
    match drv.Valuer v.value with
    | some r => r
    | none => drv.ConvertValue v.value

/-- Go method `State()`. -/
def Value.State (v : ValueGo.Value T) : ValueGo.State :=
  v.state

end ValueGo

/-! ## A concrete JSON engine

A small engine in the manner of Go's `encoding/json` at `T = *bool`, used to
evaluate the container code on concrete inputs.  A nil pointer encodes as `null`,
a pointer to a boolean as `true` or `false`; decoding accepts exactly these three
texts and overwrites the target.  It is a simplification of the real engines: it
takes no surrounding whitespace, it leaves the target alone on a rejected text
(a real engine may already have allocated the boolean), and its error text is
shortened.  The general theorems quantify over every engine and do not use it. -/

/-- The text `true`. -/
def jsonTrue : Bytes := [116, 114, 117, 101]

/-- The text `false`. -/
def jsonFalse : Bytes := [102, 97, 108, 115, 101]

/-- A simplified `json.Marshal` and `json.Unmarshal` at `T = *bool` (`Option Bool`). -/
def ptrBoolEngine : JSONEngine (Option Bool) where
  Marshal := fun v =>
    match v with
    | none => ([110, 117, 108, 108], none)
    | some true => (jsonTrue, none)
    | some false => (jsonFalse, none)
  Unmarshal := fun data cur =>
    if data = [110, 117, 108, 108] then (none, none)
    else if data = jsonTrue then (some true, none)
    else if data = jsonFalse then (some false, none)
    else (cur, some "invalid character")

/-! ## A concrete driver layer

A small `database/sql` layer at `T = *bool`, used to evaluate the container
code on concrete inputs.  The driver hands over a `bool` or an `int64`;
`sql.Null[*bool]` allocates the boolean and converts the source with
`driver.Bool`, which accepts a `bool` and the integers `0` and `1` and rejects
any other integer.  `*bool` has no `driver.Valuer` hook, and the default
converter dereferences the pointer.  It is a simplification: what it leaves in
the `sql.Null` on a rejected source (which `Scan` of the container never reads)
and its error text are not those of the real scanner.  The general theorems
quantify over every driver layer and do not use it. -/

/-- A non-nil scan source handed over by the driver. -/
inductive ScanSource
  | bool (b : Bool)
  | int64 (n : Int)

/-- A simplified `sql.Null[*bool].Scan`, with the `driver.Valuer` assertion and the
default parameter converter at `T = *bool` (`Option Bool`); driver values are booleans. -/
def ptrBoolDriver : DriverLayer (Option Bool) ScanSource Bool where
  NullScan := fun src =>
    match src with
    | ScanSource.bool b => ({ V := some b, Valid := true }, none)
    | ScanSource.int64 n =>
      if n = 1 then ({ V := some true, Valid := true }, none)
      else if n = 0 then ({ V := some false, Valid := true }, none)
      else ({ V := some false, Valid := true }, some "sql/driver: couldn't convert into type bool")
  Valuer := fun _ => none
  ConvertValue := fun x => (x, none)

/-- The same layer at `T = sql.Null[bool]`, a type that has the `driver.Valuer`
hook: its `Value()` returns `nil` when `Valid` is false and the boolean
otherwise, and the default converter goes through the same hook.  Scanning
delegates to the `Scan` method of the target, which sets `Valid` and converts
the source as above. -/
def nullBoolDriver : DriverLayer (SqlNull Bool) ScanSource Bool where
  NullScan := fun src =>
    match ptrBoolDriver.NullScan src with
    | (s, err) => ({ V := { V := s.V.getD false, Valid := true }, Valid := true }, err)
  Valuer := fun x => some (if x.Valid then some x.V else none, none)
  ConvertValue := fun x => (if x.Valid then some x.V else none, none)

/-! ## Call sequences on `value.go`

The public surface of `value.go` as data: a constructor call, followed by calls
of the mutating methods.  `Ctor.build` and `Call.exec` only dispatch to the
embedded functions above. -/

namespace ValueGo

variable {T S D : Type}

/-- One of the three named constants `StateNotSet`, `StateNull`, `StateValue`. -/
def State.Named (s : State) : Prop :=
  s = StateNotSet ∨ s = StateNull ∨ s = StateValue

instance (s : State) : Decidable (State.Named s) :=
  inferInstanceAs (Decidable (s = StateNotSet ∨ s = StateNull ∨ s = StateValue))

/-- A call of a public constructor, with its arguments. -/
inductive Ctor (T : Type)
  | EmptyValue
  | From (val : T)
  | FromPtr (ptr : Option T) (nilState : State)
  | FromCondition (cond : Bool) (val : T) (falseState : List State)
  | FromBuilder (fn : Value T → Value T)

/-- The container the constructor call returns. -/
def Ctor.build [Inhabited T] : Ctor T → Value T
  | Ctor.EmptyValue => ValueGo.EmptyValue
  | Ctor.From val => ValueGo.From val
  | Ctor.FromPtr ptr nilState => ValueGo.FromPtr ptr nilState
  | Ctor.FromCondition cond val falseState => ValueGo.FromCondition cond val falseState
  | Ctor.FromBuilder fn => ValueGo.FromBuilder fn

/-- The caller-given `State` that the constructor call stores, if it stores one,
is one of the three named constants.  Only `FromPtr` with a nil pointer stores
its `nilState`, and only `FromCondition` with a false condition stores the first
of its `falseState` arguments; every other call stores a constant of the code. -/
def Ctor.StoresNamedState : Ctor T → Prop
  | Ctor.FromPtr none nilState => nilState.Named
  | Ctor.FromCondition false _ (s :: _) => State.Named s
  | _ => True

/-- A call of a mutating method (pointer receiver), with its arguments. -/
inductive Call (T S : Type)
  | Set (value : T)
  | SetPtr (ptr : Option T)
  | Null
  | Reset
  | Scan (src : Option S)
  | UnmarshalJSON (data : Bytes)

/-- The container after the call, and the error the call returns (`none` for the
methods without a result). -/
def Call.exec (eng : JSONEngine T) (drv : DriverLayer T S D) :
    Call T S → Value T → Value T × Option Error
  | Call.Set value, v => (v.Set value, none)
  | Call.SetPtr ptr, v => (v.SetPtr ptr, none)
  | Call.Null, v => (v.Null, none)
  | Call.Reset, v => (v.Reset, none)
  | Call.Scan src, v => v.Scan drv src
  | Call.UnmarshalJSON data, v => v.UnmarshalJSON eng data

/-- Runs the calls in order on `v`; `none` as soon as a `Scan` or an
`UnmarshalJSON` of the sequence returns an error, otherwise the final container. -/
def runCalls (eng : JSONEngine T) (drv : DriverLayer T S D) :
    List (Call T S) → Value T → Option (Value T)
  | [], v => some v
  | call :: rest, v =>
    match call.exec eng drv v with
    | (v1, none) => runCalls eng drv rest v1
    | (_, some _) => none

end ValueGo

/-! ## Theorems -/

section Helpers

variable {T : Type}

/-- The concrete engine is lossless, whatever the target held before. -/
theorem ptrBoolEngine_roundtrip (v cur : Option Bool) :
    (ptrBoolEngine.Marshal v).2 = none ∧
      ptrBoolEngine.Unmarshal (ptrBoolEngine.Marshal v).1 cur = (v, none) := by
  rcases v with _ | _ | _ <;> rcases cur with _ | _ | _ <;> decide

theorem ptrBoolEngine_lossless : ptrBoolEngine.Lossless :=
  fun v => ptrBoolEngine_roundtrip v default

/-- Unfolding of `gov.go`'s `UnmarshalJSON` on bytes other than `null` when the engine succeeds. -/
theorem GovGo.unmarshal_of_decode_ok (eng : JSONEngine T) (c : GovGo.Value T) (data : Bytes)
    (w : T) (hd : data ≠ GovGo.nullValue) (he : eng.Unmarshal data c.value = (w, none)) :
    c.UnmarshalJSON eng data = (GovGo.Filled w, none) := by
  simp [GovGo.Value.UnmarshalJSON, hd, he, GovGo.Filled]

/-- Unfolding of `value.go`'s `UnmarshalJSON` on bytes other than `null`. -/
theorem ValueGo.unmarshal_of_not_null (eng : JSONEngine T) (c : ValueGo.Value T) (data : Bytes)
    (hd : data ≠ ValueGo.jsonNull) :
    c.UnmarshalJSON eng data =
      (ValueGo.From (eng.Unmarshal data c.value).1, (eng.Unmarshal data c.value).2) := by
  simp [ValueGo.Value.UnmarshalJSON, hd, ValueGo.From]

/-- The state of the container a constructor call returns is named exactly when
the caller-given state it stores, if any, is named. -/
theorem ValueGo.named_build_iff [Inhabited T] (k : ValueGo.Ctor T) :
    k.build.state.Named ↔ k.StoresNamedState := by
  cases k with
  | EmptyValue => exact ⟨fun _ => trivial, fun _ => Or.inl rfl⟩
  | From val => exact ⟨fun _ => trivial, fun _ => Or.inr (Or.inr rfl)⟩
  | FromPtr ptr nilState =>
    cases ptr with
    | none => exact Iff.rfl
    | some p => exact ⟨fun _ => trivial, fun _ => Or.inr (Or.inr rfl)⟩
  | FromCondition cond val falseState =>
    cases cond with
    | true => exact ⟨fun _ => trivial, fun _ => Or.inr (Or.inr rfl)⟩
    | false =>
      cases falseState with
      | nil => exact ⟨fun _ => trivial, fun _ => Or.inl rfl⟩
      | cons s rest =>
        simp [ValueGo.Ctor.build, ValueGo.FromCondition, ValueGo.FromPtr,
          ValueGo.Ctor.StoresNamedState]
  | FromBuilder fn => exact ⟨fun _ => trivial, fun _ => Or.inl rfl⟩

/-- A mutating call that returns no error leaves a named state, whatever the state before. -/
theorem ValueGo.named_exec_of_ok {S D : Type} (eng : JSONEngine T) (drv : DriverLayer T S D)
    (call : ValueGo.Call T S) (v : ValueGo.Value T) (hok : (call.exec eng drv v).2 = none) :
    (call.exec eng drv v).1.state.Named := by
  cases call with
  | Set value => exact Or.inr (Or.inr rfl)
  | SetPtr ptr =>
    cases ptr with
    | none => exact Or.inr (Or.inl rfl)
    | some p => exact Or.inr (Or.inr rfl)
  | Null => exact Or.inr (Or.inl rfl)
  | Reset => exact Or.inl rfl
  | Scan src =>
    cases src with
    | none => exact Or.inr (Or.inl rfl)
    | some x =>
      have hok1 : (ValueGo.Value.Scan drv v (some x)).2 = none := hok
      show (ValueGo.Value.Scan drv v (some x)).1.state.Named
      rcases hx : drv.NullScan x with ⟨⟨w, valid⟩, _ | err⟩
      · cases valid
        · have h : ValueGo.Value.Scan drv v (some x) = (v.Null, none) := by
            simp [ValueGo.Value.Scan, hx]
          rw [h]
          exact Or.inr (Or.inl rfl)
        · have h : ValueGo.Value.Scan drv v (some x) = (v.Set w, none) := by
            simp [ValueGo.Value.Scan, hx]
          rw [h]
          exact Or.inr (Or.inr rfl)
      · have h : ValueGo.Value.Scan drv v (some x) = (v, some err) := by
          simp [ValueGo.Value.Scan, hx]
        rw [h] at hok1
        cases hok1
  | UnmarshalJSON data =>
    show (ValueGo.Value.UnmarshalJSON eng v data).1.state.Named
    by_cases hd : data = ValueGo.jsonNull
    · subst hd
      exact Or.inr (Or.inl rfl)
    · rw [ValueGo.unmarshal_of_not_null eng v data hd]
      exact Or.inr (Or.inr rfl)

/-- Every mutating call keeps the state named, whether or not it returns an error. -/
theorem ValueGo.named_exec {S D : Type} (eng : JSONEngine T) (drv : DriverLayer T S D)
    (call : ValueGo.Call T S) (v : ValueGo.Value T) (hv : v.state.Named) :
    (call.exec eng drv v).1.state.Named := by
  cases call with
  | Set value => exact Or.inr (Or.inr rfl)
  | SetPtr ptr =>
    cases ptr with
    | none => exact Or.inr (Or.inl rfl)
    | some p => exact Or.inr (Or.inr rfl)
  | Null => exact Or.inr (Or.inl rfl)
  | Reset => exact Or.inl rfl
  | Scan src =>
    cases src with
    | none => exact Or.inr (Or.inl rfl)
    | some x =>
      show (ValueGo.Value.Scan drv v (some x)).1.state.Named
      rcases hx : drv.NullScan x with ⟨⟨w, valid⟩, _ | err⟩
      · cases valid
        · have h : ValueGo.Value.Scan drv v (some x) = (v.Null, none) := by
            simp [ValueGo.Value.Scan, hx]
          rw [h]
          exact Or.inr (Or.inl rfl)
        · have h : ValueGo.Value.Scan drv v (some x) = (v.Set w, none) := by
            simp [ValueGo.Value.Scan, hx]
          rw [h]
          exact Or.inr (Or.inr rfl)
      · have h : ValueGo.Value.Scan drv v (some x) = (v, some err) := by
          simp [ValueGo.Value.Scan, hx]
        rw [h]
        exact hv
  | UnmarshalJSON data =>
    show (ValueGo.Value.UnmarshalJSON eng v data).1.state.Named
    by_cases hd : data = ValueGo.jsonNull
    · subst hd
      exact Or.inr (Or.inl rfl)
    · rw [ValueGo.unmarshal_of_not_null eng v data hd]
      exact Or.inr (Or.inr rfl)

/-- A finished call sequence started on a named state ends on a named state. -/
theorem ValueGo.named_runCalls {S D : Type} (eng : JSONEngine T) (drv : DriverLayer T S D)
    (calls : List (ValueGo.Call T S)) :
    ∀ v c : ValueGo.Value T, v.state.Named → ValueGo.runCalls eng drv calls v = some c →
      c.state.Named := by
  induction calls with
  | nil =>
    intro v c hv hr
    have hvc : v = c := by simpa [ValueGo.runCalls] using hr
    exact hvc ▸ hv
  | cons call rest ih =>
    intro v c hv hr
    have hstep := ValueGo.named_exec eng drv call v hv
    unfold ValueGo.runCalls at hr
    rcases hx : call.exec eng drv v with ⟨v1, _ | err⟩
    · rw [hx] at hr hstep
      exact ih v1 c hstep hr
    · rw [hx] at hr
      cases hr

/-- A finished call sequence with at least one call ends on a named state,
whatever the state it started on. -/
theorem ValueGo.named_runCalls_of_ne_nil {S D : Type} (eng : JSONEngine T)
    (drv : DriverLayer T S D) (calls : List (ValueGo.Call T S)) (v c : ValueGo.Value T)
    (hne : calls ≠ []) (hr : ValueGo.runCalls eng drv calls v = some c) :
    c.state.Named := by
  cases calls with
  | nil => exact absurd rfl hne
  | cons call rest =>
    unfold ValueGo.runCalls at hr
    have hstep := ValueGo.named_exec_of_ok eng drv call v
    rcases hx : call.exec eng drv v with ⟨v1, _ | err⟩
    · rw [hx] at hr hstep
      exact ValueGo.named_runCalls eng drv rest v1 c (hstep rfl) hr
    · rw [hx] at hr
      cases hr

end Helpers

section Claims

variable {T : Type}

/-! ### C1: JSON round trip -/

/-- C1, as stated, fails: the engine for `*bool` is lossless, yet the Present
container holding the nil pointer is encoded as `null` in both designs, and
decoding these bytes into a fresh container gives state Null, not Present. -/
theorem C1_roundtrip_fails_on_null_encoding :
    (∀ v cur : Option Bool, (ptrBoolEngine.Marshal v).2 = none ∧
        ptrBoolEngine.Unmarshal (ptrBoolEngine.Marshal v).1 cur = (v, none)) ∧
      ptrBoolEngine.Lossless ∧
      (GovGo.Filled (none : Option Bool)).MarshalJSON ptrBoolEngine = (GovGo.nullValue, none) ∧
      (default : GovGo.Value (Option Bool)).UnmarshalJSON ptrBoolEngine
          ((GovGo.Filled (none : Option Bool)).MarshalJSON ptrBoolEngine).1
        = (GovGo.Nil, none) ∧
      ((default : GovGo.Value (Option Bool)).UnmarshalJSON ptrBoolEngine
          ((GovGo.Filled (none : Option Bool)).MarshalJSON ptrBoolEngine).1).1
        ≠ GovGo.Filled none ∧
      (ValueGo.From (none : Option Bool)).MarshalJSON ptrBoolEngine = (ValueGo.jsonNull, none) ∧
      (default : ValueGo.Value (Option Bool)).UnmarshalJSON ptrBoolEngine
          ((ValueGo.From (none : Option Bool)).MarshalJSON ptrBoolEngine).1
        = (ValueGo.FromPtr none ValueGo.StateNull, none) ∧
      ((default : ValueGo.Value (Option Bool)).UnmarshalJSON ptrBoolEngine
          ((ValueGo.From (none : Option Bool)).MarshalJSON ptrBoolEngine).1).1
        ≠ ValueGo.From none :=
  ⟨ptrBoolEngine_roundtrip, ptrBoolEngine_lossless, by decide, by decide, by decide,
    by decide, by decide, by decide⟩

/-- C1, amended: with a JSON engine that is lossless on `T`, for every `v` whose
encoding is not the four bytes `null`, `MarshalJSON` on the Present container
built from `v` returns the engine's bytes with no error, and `UnmarshalJSON` with
those bytes on a zero-initialised container returns no error and leaves the
Present container holding `v`; in `gov.go` (`Filled`) and in `value.go` (`From`). -/
theorem C1_json_roundtrip [Inhabited T] (eng : JSONEngine T) (hl : eng.Lossless) (v : T)
    (hv : (eng.Marshal v).1 ≠ [110, 117, 108, 108]) :
    ((GovGo.Filled v).MarshalJSON eng).2 = none ∧
      (default : GovGo.Value T).UnmarshalJSON eng ((GovGo.Filled v).MarshalJSON eng).1
        = (GovGo.Filled v, none) ∧
      ((ValueGo.From v).MarshalJSON eng).2 = none ∧
      (default : ValueGo.Value T).UnmarshalJSON eng ((ValueGo.From v).MarshalJSON eng).1
        = (ValueGo.From v, none) := by
  obtain ⟨hm, hu⟩ := hl v
  have hg : (GovGo.Filled v).MarshalJSON eng = eng.Marshal v := by
    simp [GovGo.Value.MarshalJSON, GovGo.Value.Filled, GovGo.Filled]
  have hf : (ValueGo.From v).MarshalJSON eng = eng.Marshal v := by
    have h21 : ValueGo.StateValue ≠ ValueGo.StateNull := by decide
    simp [ValueGo.Value.MarshalJSON, ValueGo.Value.IsNull, ValueGo.Value.IsSet, ValueGo.From, h21]
  rw [hg, hf]
  refine ⟨hm, ?_, hm, ?_⟩
  · exact GovGo.unmarshal_of_decode_ok eng default _ v hv hu
  · rw [ValueGo.unmarshal_of_not_null eng default _ hv]
    show (ValueGo.From (eng.Unmarshal (eng.Marshal v).1 default).1,
      (eng.Unmarshal (eng.Marshal v).1 default).2) = _
    rw [hu]

/-- C1, amended, at a concrete input: the engine for `*bool` and a pointer to `true`. -/
theorem C1_json_roundtrip_witness :
    ptrBoolEngine.Lossless ∧ (ptrBoolEngine.Marshal (some true)).1 ≠ [110, 117, 108, 108] ∧
      (((GovGo.Filled (some true)).MarshalJSON ptrBoolEngine).2 = none ∧
        (default : GovGo.Value (Option Bool)).UnmarshalJSON ptrBoolEngine
            ((GovGo.Filled (some true)).MarshalJSON ptrBoolEngine).1
          = (GovGo.Filled (some true), none) ∧
        ((ValueGo.From (some true)).MarshalJSON ptrBoolEngine).2 = none ∧
        (default : ValueGo.Value (Option Bool)).UnmarshalJSON ptrBoolEngine
            ((ValueGo.From (some true)).MarshalJSON ptrBoolEngine).1
          = (ValueGo.From (some true), none)) :=
  ⟨ptrBoolEngine_lossless, by decide,
    C1_json_roundtrip ptrBoolEngine ptrBoolEngine_lossless (some true) (by decide)⟩

/-! ### C2: the state predicates of `gov.go` -/

/-- C2, as stated, fails: on the Nil container of `gov.go` both `Present()` and
`Nil()` return true (and `IsZero()` returns false), so two of the three
predicates hold at once. -/
theorem C2_present_and_nil_both_true :
    (GovGo.Nil : GovGo.Value Int).state = GovGo.StateNil ∧
      (GovGo.Nil : GovGo.Value Int).Present = true ∧
      (GovGo.Nil : GovGo.Value Int).Nil = true ∧
      (GovGo.Nil : GovGo.Value Int).IsZero = false := by
  decide

/-- C2, amended: in `gov.go`, for every container in one of the three states,
exactly one of `Filled()`, `Nil()` and `IsZero()` returns true; `Present()` is
the negation of `IsZero()` and returns true exactly when `Nil()` or `Filled()`
does. -/
theorem C2_filled_nil_zero_partition (c : GovGo.Value T)
    (h : c.state = GovGo.StateNone ∨ c.state = GovGo.StateNil ∨ c.state = GovGo.StateFilled) :
    ((c.Filled = true ∧ c.Nil = false ∧ c.IsZero = false) ∨
        (c.Filled = false ∧ c.Nil = true ∧ c.IsZero = false) ∨
        (c.Filled = false ∧ c.Nil = false ∧ c.IsZero = true)) ∧
      c.Present = (!c.IsZero) ∧
      c.Present = (c.Nil || c.Filled) := by
  obtain ⟨s, x⟩ := c
  simp only [GovGo.Value.Present, GovGo.Value.Filled, GovGo.Value.Nil, GovGo.Value.IsZero]
  simp only at h
  rcases h with h | h | h <;> subst h <;> decide

/-- C2, amended, at a concrete input: the Nil container of integers. -/
theorem C2_filled_nil_zero_partition_witness :
    (((GovGo.Nil : GovGo.Value Int).Filled = true ∧ (GovGo.Nil : GovGo.Value Int).Nil = false ∧
          (GovGo.Nil : GovGo.Value Int).IsZero = false) ∨
        ((GovGo.Nil : GovGo.Value Int).Filled = false ∧ (GovGo.Nil : GovGo.Value Int).Nil = true ∧
          (GovGo.Nil : GovGo.Value Int).IsZero = false) ∨
        ((GovGo.Nil : GovGo.Value Int).Filled = false ∧ (GovGo.Nil : GovGo.Value Int).Nil = false ∧
          (GovGo.Nil : GovGo.Value Int).IsZero = true)) ∧
      (GovGo.Nil : GovGo.Value Int).Present = (!(GovGo.Nil : GovGo.Value Int).IsZero) ∧
      (GovGo.Nil : GovGo.Value Int).Present
        = ((GovGo.Nil : GovGo.Value Int).Nil || (GovGo.Nil : GovGo.Value Int).Filled) :=
  C2_filled_nil_zero_partition (GovGo.Nil : GovGo.Value Int) (Or.inr (Or.inl rfl))

/-! ### C3: `GetOr` of `value.go` -/

/-- C3, the code at the failing inputs: `GetOr` of `value.go` tests `Valid()`,
which is true in state Null, so on a Null container it returns the stored
payload and not the fallback: `0` instead of `5` on `FromPtr(nil, StateNull)`,
and the stale `3` instead of `5` after `Set(3)` then `Null()`.  In general
`GetOr` returns the fallback only when the state is neither Null nor Present. -/
theorem C3_GetOr_null_returns_payload :
    (ValueGo.FromPtr none ValueGo.StateNull : ValueGo.Value Int).state = ValueGo.StateNull ∧
      (ValueGo.FromPtr none ValueGo.StateNull : ValueGo.Value Int).GetOr 5 = 0 ∧
      ((ValueGo.EmptyValue : ValueGo.Value Int).Set 3).Null.state = ValueGo.StateNull ∧
      ((ValueGo.EmptyValue : ValueGo.Value Int).Set 3).Null.GetOr 5 = 3 ∧
      (∀ (c : ValueGo.Value T) (f : T),
        c.GetOr f =
          if c.state = ValueGo.StateNull ∨ c.state = ValueGo.StateValue then c.value else f) := by
  refine ⟨by decide, by decide, by decide, by decide, ?_⟩
  intro c f
  by_cases h1 : c.state = ValueGo.StateNull <;> by_cases h2 : c.state = ValueGo.StateValue <;>
    simp [ValueGo.Value.GetOr, ValueGo.Value.Valid, ValueGo.Value.IsNull, ValueGo.Value.IsSet,
      h1, h2]

/-! ### C4: `FromBuilder` of `value.go` -/

/-- C4, the code at the failing inputs: the callback of `FromBuilder` receives
the container by value, so whatever it does to its argument, `FromBuilder`
returns the Absent container it started from; with a callback that calls
`Set(7)` the result is Absent and not Present, with one that calls `Null()` it
is Absent and not Null. -/
theorem C4_FromBuilder_returns_empty :
    (∀ (T : Type) [Inhabited T] (fn : ValueGo.Value T → ValueGo.Value T),
        ValueGo.FromBuilder fn = ValueGo.EmptyValue) ∧
      (ValueGo.FromBuilder (fun v => v.Set 7) : ValueGo.Value Int)
        = { state := ValueGo.StateNotSet, value := 0 } ∧
      (ValueGo.FromBuilder (fun v => v.Set 7) : ValueGo.Value Int) ≠ ValueGo.From 7 ∧
      (ValueGo.FromBuilder (fun v => v.Null) : ValueGo.Value Int).state = ValueGo.StateNotSet ∧
      (ValueGo.FromBuilder (fun v => v.Null) : ValueGo.Value Int).IsNull = false :=
  ⟨fun _ _ _ => rfl, by decide, by decide, by decide, by decide⟩

/-! ### C5: `GetOrZero` of `value.go` -/

/-- C5, the code at the failing input: after `Set(7)` then `Null()` the state is
Null, not Present, and `GetOrZero()` returns the stale `7`, not the zero value;
`Get()` on the same container returns `(0, false)`. -/
theorem C5_GetOrZero_after_Set_Null :
    ((ValueGo.EmptyValue : ValueGo.Value Int).Set 7).Null.state = ValueGo.StateNull ∧
      ((ValueGo.EmptyValue : ValueGo.Value Int).Set 7).Null.IsSet = false ∧
      ((ValueGo.EmptyValue : ValueGo.Value Int).Set 7).Null.GetOrZero = 7 ∧
      ((ValueGo.EmptyValue : ValueGo.Value Int).Set 7).Null.GetOrZero ≠ (default : Int) ∧
      ((ValueGo.EmptyValue : ValueGo.Value Int).Set 7).Null.Get = (0, false) := by
  decide

/-! ### C6: `Null` and `Reset` of `value.go` -/

/-- C6, as stated, fails: after `Set(7)` then `Null()` the stored value is still
`7`, not the zero value, and `MustGet()` returns `7`; likewise after `Set(7)`
then `Reset()`. -/
theorem C6_null_reset_keep_payload :
    ((ValueGo.EmptyValue : ValueGo.Value Int).Set 7).Null.value = 7 ∧
      ((ValueGo.EmptyValue : ValueGo.Value Int).Set 7).Null.value ≠ (default : Int) ∧
      ((ValueGo.EmptyValue : ValueGo.Value Int).Set 7).Null.MustGet = 7 ∧
      ((ValueGo.EmptyValue : ValueGo.Value Int).Set 7).Reset.value = 7 ∧
      ((ValueGo.EmptyValue : ValueGo.Value Int).Set 7).Reset.value ≠ (default : Int) ∧
      ((ValueGo.EmptyValue : ValueGo.Value Int).Set 7).Reset.MustGet = 7 := by
  decide

/-- C6, amended: in `value.go`, for every container `c`, after `c.Null()` the
state is Null and the stored value is the one `c` held before; after `c.Reset()`
the state is Absent and the stored value is the one `c` held before; `MustGet`
returns the stored value whatever the state, so after `Set(x)` followed by
`Null()` or `Reset()` it returns `x`. -/
theorem C6_null_reset_change_state_only (c : ValueGo.Value T) (x : T) :
    c.Null = { state := ValueGo.StateNull, value := c.value } ∧
      c.Reset = { state := ValueGo.StateNotSet, value := c.value } ∧
      c.Null.MustGet = c.value ∧
      c.Reset.MustGet = c.value ∧
      (c.Set x).Null.MustGet = x ∧
      (c.Set x).Reset.MustGet = x :=
  ⟨rfl, rfl, rfl, rfl, rfl, rfl⟩

/-! ### C7: the conditional constructors -/

/-- C7, as stated, fails for `gov.go`: `When(5, false)` with no optional argument
is the Null (Nil) container, not the Absent one. -/
theorem C7_When_default_is_nil :
    GovGo.When (5 : Int) false [] = GovGo.Nil ∧
      (GovGo.When (5 : Int) false []).state = GovGo.StateNil ∧
      (GovGo.When (5 : Int) false []).state ≠ GovGo.StateNone ∧
      GovGo.When (5 : Int) false [] ≠ GovGo.None := by
  decide

/-- C7, amended: the conditional constructor returns the Present container
holding `v` when the condition is true.  When it is false, `FromCondition` of
`value.go` returns the container with zero payload in the first state the caller
passed, and the Absent one when the caller passed none; `When` of `gov.go`
returns the Absent (None) container when the first flag passed is true, and the
Null (Nil) container when it is false or when no flag is passed. -/
theorem C7_conditional_constructors [Inhabited T] (v : T) (s : ValueGo.State)
    (ss : List ValueGo.State) (bs : List Bool) :
    ValueGo.FromCondition true v [] = ValueGo.From v ∧
      ValueGo.FromCondition true v (s :: ss) = ValueGo.From v ∧
      ValueGo.FromCondition false v [] = ValueGo.EmptyValue ∧
      (ValueGo.FromCondition false v []).state = ValueGo.StateNotSet ∧
      ValueGo.FromCondition false v (s :: ss) = { state := s, value := default } ∧
      GovGo.When v true [] = GovGo.Filled v ∧
      GovGo.When v true bs = GovGo.Filled v ∧
      GovGo.When v false [] = GovGo.Nil ∧
      GovGo.When v false (false :: bs) = GovGo.Nil ∧
      GovGo.When v false (true :: bs) = GovGo.None := by
  refine ⟨rfl, rfl, rfl, rfl, ?_, rfl, ?_, rfl, ?_, ?_⟩
  · simp [ValueGo.FromCondition, ValueGo.FromPtr]
  · simp [GovGo.When]
  · simp [GovGo.When, GovGo.Pointer, GovGo.Nil]
  · simp [GovGo.When, GovGo.Pointer, GovGo.None]

/-! ### C8: `Get` -/

/-- C8: in both designs `Get()` on the Present container built from `v` returns
`(v, true)`; on the Absent constructor's result, on a zero-initialised container
and on the Null container it returns `(zero, false)`; and on every container it
returns `(stored value, true)` if the state is Present and `(zero, false)`
otherwise.  `Get` is a total function, so it never fails. -/
theorem C8_Get [Inhabited T] (v : T) :
    (GovGo.Filled v).Get = (v, true) ∧
      (GovGo.None : GovGo.Value T).Get = (default, false) ∧
      (default : GovGo.Value T).Get = (default, false) ∧
      (GovGo.Nil : GovGo.Value T).Get = (default, false) ∧
      (∀ c : GovGo.Value T,
        c.Get = if c.state = GovGo.StateFilled then (c.value, true) else (default, false)) ∧
      (ValueGo.From v).Get = (v, true) ∧
      (ValueGo.EmptyValue : ValueGo.Value T).Get = (default, false) ∧
      (default : ValueGo.Value T).Get = (default, false) ∧
      (ValueGo.FromPtr none ValueGo.StateNull : ValueGo.Value T).Get = (default, false) ∧
      (∀ c : ValueGo.Value T,
        c.Get = if c.state = ValueGo.StateValue then (c.value, true) else (default, false)) := by
  refine ⟨rfl, rfl, rfl, rfl, ?_, rfl, rfl, rfl, rfl, ?_⟩
  · intro c
    by_cases h : c.state = GovGo.StateFilled <;> simp [GovGo.Value.Get, GovGo.Value.Filled, h]
  · intro c
    by_cases h : c.state = ValueGo.StateValue <;> simp [ValueGo.Value.Get, h]

/-! ### C9: decoding the literal `null` -/

/-- C9: in both designs, for every engine and every container `c`,
`UnmarshalJSON` with the four bytes `null` returns no error and leaves `c` in
state Null with its payload untouched; the result is the same for any two
engines, so the decoder for `T` plays no part in it; and `Get()` afterwards
returns `(zero, false)`. -/
theorem C9_unmarshal_null [Inhabited T] (eng other : JSONEngine T) (g : GovGo.Value T)
    (c : ValueGo.Value T) :
    g.UnmarshalJSON eng [110, 117, 108, 108]
        = ({ state := GovGo.StateNil, value := g.value }, none) ∧
      g.UnmarshalJSON eng [110, 117, 108, 108] = g.UnmarshalJSON other [110, 117, 108, 108] ∧
      (g.UnmarshalJSON eng [110, 117, 108, 108]).1.Nil = true ∧
      (g.UnmarshalJSON eng [110, 117, 108, 108]).1.Get = (default, false) ∧
      c.UnmarshalJSON eng [110, 117, 108, 108]
        = ({ state := ValueGo.StateNull, value := c.value }, none) ∧
      c.UnmarshalJSON eng [110, 117, 108, 108] = c.UnmarshalJSON other [110, 117, 108, 108] ∧
      (c.UnmarshalJSON eng [110, 117, 108, 108]).1.IsNull = true ∧
      (c.UnmarshalJSON eng [110, 117, 108, 108]).1.Get = (default, false) :=
  ⟨rfl, rfl, rfl, rfl, rfl, rfl, rfl, rfl⟩

/-! ### C10: `MarshalJSON` -/

/-- C10: in both designs, for every engine and every payload `x`, `MarshalJSON`
on the Present container holding `x` returns exactly what the engine's encoder
returns on `x` (bytes and error), and on an Absent or Null container it returns
the bytes `null` with no error, whatever the engine; on any container the
encoder's result is returned if the state is Present and `null` otherwise. -/
theorem C10_MarshalJSON (eng : JSONEngine T) (x : T) :
    GovGo.Value.MarshalJSON eng { state := GovGo.StateFilled, value := x } = eng.Marshal x ∧
      GovGo.Value.MarshalJSON eng { state := GovGo.StateNone, value := x }
        = ([110, 117, 108, 108], none) ∧
      GovGo.Value.MarshalJSON eng { state := GovGo.StateNil, value := x }
        = ([110, 117, 108, 108], none) ∧
      (∀ g : GovGo.Value T,
        g.MarshalJSON eng
          = if g.state = GovGo.StateFilled then eng.Marshal g.value
            else ([110, 117, 108, 108], none)) ∧
      ValueGo.Value.MarshalJSON eng { state := ValueGo.StateValue, value := x } = eng.Marshal x ∧
      ValueGo.Value.MarshalJSON eng { state := ValueGo.StateNotSet, value := x }
        = ([110, 117, 108, 108], none) ∧
      ValueGo.Value.MarshalJSON eng { state := ValueGo.StateNull, value := x }
        = ([110, 117, 108, 108], none) ∧
      (∀ c : ValueGo.Value T,
        c.MarshalJSON eng
          = if c.state = ValueGo.StateValue then eng.Marshal c.value
            else ([110, 117, 108, 108], none)) := by
  refine ⟨rfl, rfl, rfl, ?_, rfl, rfl, rfl, ?_⟩
  · intro g
    by_cases h : g.state = GovGo.StateFilled <;>
      simp [GovGo.Value.MarshalJSON, GovGo.Value.Filled, GovGo.nullValue, h]
  · intro c
    by_cases h : c.state = ValueGo.StateValue
    · have h21 : ValueGo.StateValue ≠ ValueGo.StateNull := by decide
      simp [ValueGo.Value.MarshalJSON, ValueGo.Value.IsNull, ValueGo.Value.IsSet,
        ValueGo.jsonNull, h, h21]
    · simp [ValueGo.Value.MarshalJSON, ValueGo.Value.IsNull, ValueGo.Value.IsSet,
        ValueGo.jsonNull, h]

/-! ### C11: `Scan` -/

/-- C11: in both designs, for every container in any prior state, `Scan(nil)`
returns no error and leaves the container in state Null; and `Scan(src)` with a
non-nil `src` that `sql.Null[T].Scan` converts without error to a valid value `w`
returns no error and leaves the Present container holding `w`. -/
theorem C11_Scan {S D : Type} (drv : DriverLayer T S D) (g : GovGo.Value T)
    (c : ValueGo.Value T) (src : S) (w : T)
    (hs : drv.NullScan src = ({ V := w, Valid := true }, none)) :
    g.Scan drv none = ({ state := GovGo.StateNil, value := g.value }, none) ∧
      (g.Scan drv none).1.Nil = true ∧
      g.Scan drv (some src) = (GovGo.Filled w, none) ∧
      c.Scan drv none = ({ state := ValueGo.StateNull, value := c.value }, none) ∧
      (c.Scan drv none).1.IsNull = true ∧
      c.Scan drv (some src) = (ValueGo.From w, none) := by
  refine ⟨rfl, rfl, ?_, rfl, rfl, ?_⟩
  · simp [GovGo.Value.Scan, hs, GovGo.Filled]
  · simp [ValueGo.Value.Scan, hs, ValueGo.Value.Set, ValueGo.From]

/-- C11 at a concrete input: the driver for `*bool`, the source `int64(1)`, and
containers that were Present holding a pointer to `false`. -/
theorem C11_Scan_witness :
    ptrBoolDriver.NullScan (ScanSource.int64 1) = ({ V := some true, Valid := true }, none) ∧
      ((GovGo.Filled (some false)).Scan ptrBoolDriver none
          = ({ state := GovGo.StateNil, value := some false }, none) ∧
        ((GovGo.Filled (some false)).Scan ptrBoolDriver none).1.Nil = true ∧
        (GovGo.Filled (some false)).Scan ptrBoolDriver (some (ScanSource.int64 1))
          = (GovGo.Filled (some true), none) ∧
        (ValueGo.From (some false)).Scan ptrBoolDriver none
          = ({ state := ValueGo.StateNull, value := some false }, none) ∧
        ((ValueGo.From (some false)).Scan ptrBoolDriver none).1.IsNull = true ∧
        (ValueGo.From (some false)).Scan ptrBoolDriver (some (ScanSource.int64 1))
          = (ValueGo.From (some true), none)) :=
  ⟨rfl, C11_Scan ptrBoolDriver (GovGo.Filled (some false)) (ValueGo.From (some false))
    (ScanSource.int64 1) (some true) rfl⟩

/-! ### C12: `UnmarshalJSON` on bytes other than `null` -/

/-- C12: in both designs, for bytes other than the literal `null` and every
container, the error `UnmarshalJSON` returns is exactly the error of the engine's
decoder on those bytes (so it is an error if and only if the decoder fails), and
when the decoder reports no error the container is Present holding the value the
decoder stored. -/
theorem C12_UnmarshalJSON (eng : JSONEngine T) (g : GovGo.Value T) (c : ValueGo.Value T)
    (data : Bytes) (hd : data ≠ [110, 117, 108, 108]) :
    (g.UnmarshalJSON eng data).2 = (eng.Unmarshal data g.value).2 ∧
      ((g.UnmarshalJSON eng data).2 ≠ none ↔ (eng.Unmarshal data g.value).2 ≠ none) ∧
      (∀ w, eng.Unmarshal data g.value = (w, none) →
        g.UnmarshalJSON eng data = (GovGo.Filled w, none)) ∧
      (c.UnmarshalJSON eng data).2 = (eng.Unmarshal data c.value).2 ∧
      ((c.UnmarshalJSON eng data).2 ≠ none ↔ (eng.Unmarshal data c.value).2 ≠ none) ∧
      (∀ w, eng.Unmarshal data c.value = (w, none) →
        c.UnmarshalJSON eng data = (ValueGo.From w, none)) := by
  have hg : (g.UnmarshalJSON eng data).2 = (eng.Unmarshal data g.value).2 := by
    have hd0 : data ≠ GovGo.nullValue := hd
    unfold GovGo.Value.UnmarshalJSON
    rw [if_neg hd0]
    rcases eng.Unmarshal data g.value with ⟨w, _ | err⟩ <;> rfl
  have hc : (c.UnmarshalJSON eng data).2 = (eng.Unmarshal data c.value).2 := by
    rw [ValueGo.unmarshal_of_not_null eng c data hd]
  refine ⟨hg, by rw [hg], ?_, hc, by rw [hc], ?_⟩
  · intro w hw
    exact GovGo.unmarshal_of_decode_ok eng g data w hd hw
  · intro w hw
    rw [ValueGo.unmarshal_of_not_null eng c data hd, hw]

/-- C12 at concrete inputs: the engine for `*bool` on the text `true` (decoded)
in both designs, on containers that were Null. -/
theorem C12_UnmarshalJSON_witness :
    jsonTrue ≠ [110, 117, 108, 108] ∧
      ptrBoolEngine.Unmarshal jsonTrue none = (some true, none) ∧
      (GovGo.Nil : GovGo.Value (Option Bool)).UnmarshalJSON ptrBoolEngine jsonTrue
        = (GovGo.Filled (some true), none) ∧
      (ValueGo.FromPtr none ValueGo.StateNull : ValueGo.Value (Option Bool)).UnmarshalJSON
          ptrBoolEngine jsonTrue
        = (ValueGo.From (some true), none) :=
  ⟨by decide, rfl,
    (C12_UnmarshalJSON ptrBoolEngine GovGo.Nil (ValueGo.FromPtr none ValueGo.StateNull)
      jsonTrue (by decide)).2.2.1 (some true) rfl,
    (C12_UnmarshalJSON ptrBoolEngine GovGo.Nil (ValueGo.FromPtr none ValueGo.StateNull)
      jsonTrue (by decide)).2.2.2.2.2 (some true) rfl⟩

/-! ### C13: `Pointer` of `gov.go` -/

/-- C13: in `gov.go`, `Pointer(ptr, noneOnNil...)` returns the Present container
holding `*ptr` when `ptr` is non-nil, whatever the flags; when `ptr` is nil it
returns the Null container if no flag is given or the first flag is false, and
the Absent container with zero payload if the first flag is true; the result for
a nil `ptr` is Absent if and only if a first flag is given and is true. -/
theorem C13_Pointer [Inhabited T] (p : T) (bs : List Bool) :
    GovGo.Pointer (some p) bs = GovGo.Filled p ∧
      (GovGo.Pointer none [] : GovGo.Value T) = GovGo.Nil ∧
      (GovGo.Pointer none (false :: bs) : GovGo.Value T) = GovGo.Nil ∧
      (GovGo.Pointer none (true :: bs) : GovGo.Value T) = GovGo.None ∧
      ((GovGo.Pointer none bs : GovGo.Value T).state = GovGo.StateNone ↔ bs.head? = some true) ∧
      ((GovGo.Pointer none bs : GovGo.Value T).state = GovGo.StateNil ↔ bs.head? ≠ some true) ∧
      (GovGo.Pointer none bs : GovGo.Value T).value = default := by
  refine ⟨rfl, rfl, ?_, ?_, ?_, ?_, ?_⟩
  · simp [GovGo.Pointer, GovGo.Nil]
  · simp [GovGo.Pointer, GovGo.None]
  · rcases bs with _ | ⟨b, r⟩
    · simp [GovGo.Pointer]
    · cases b <;> simp [GovGo.Pointer]
  · rcases bs with _ | ⟨b, r⟩
    · simp [GovGo.Pointer]
    · cases b <;> simp [GovGo.Pointer]
  · rcases bs with _ | ⟨b, r⟩
    · simp [GovGo.Pointer]
    · cases b <;> simp [GovGo.Pointer]

/-! ### C14: `Value` -/

/-- C14: in both designs, `Value()` on a container in state Null returns
`(nil, nil)`, whatever the payload and the driver layer; on a container in state
Present it returns exactly the result of the `driver.Valuer` hook of the held
value when the type assertion succeeds, and exactly the result of the default
parameter converter on the held value when it does not. -/
theorem C14_Value {S D : Type} (drv : DriverLayer T S D) (x : T) :
    GovGo.Value.Value drv { state := GovGo.StateNil, value := x } = (none, none) ∧
      (∀ r, drv.Valuer x = some r →
        GovGo.Value.Value drv { state := GovGo.StateFilled, value := x } = r) ∧
      (drv.Valuer x = none →
        GovGo.Value.Value drv { state := GovGo.StateFilled, value := x } = drv.ConvertValue x) ∧
      ValueGo.Value.Value drv { state := ValueGo.StateNull, value := x } = (none, none) ∧
      (∀ r, drv.Valuer x = some r →
        ValueGo.Value.Value drv { state := ValueGo.StateValue, value := x } = r) ∧
      (drv.Valuer x = none →
        ValueGo.Value.Value drv { state := ValueGo.StateValue, value := x }
          = drv.ConvertValue x) := by
  have hg : GovGo.Value.Value drv { state := GovGo.StateFilled, value := x }
      = match drv.Valuer x with
        | some r => r
        | none => drv.ConvertValue x := rfl
  have hc : ValueGo.Value.Value drv { state := ValueGo.StateValue, value := x }
      = match drv.Valuer x with
        | some r => r
        | none => drv.ConvertValue x := rfl
  refine ⟨rfl, ?_, ?_, rfl, ?_, ?_⟩
  · intro r hr
    rw [hg, hr]
  · intro hn
    rw [hg, hn]
  · intro r hr
    rw [hc, hr]
  · intro hn
    rw [hc, hn]

/-- C14 at concrete inputs: `sql.Null[bool]` has the hook, and the Present
container holding a valid `sql.Null[bool]` binds what the hook returns;
`*bool` has no hook, and the Present container holding a pointer to `true` binds
what the default converter returns. -/
theorem C14_Value_witness :
    (nullBoolDriver.Valuer { V := true, Valid := true } = some (some true, none) ∧
        GovGo.Value.Value nullBoolDriver (GovGo.Filled { V := true, Valid := true })
          = (some true, none) ∧
        ValueGo.Value.Value nullBoolDriver (ValueGo.From { V := true, Valid := true })
          = (some true, none)) ∧
      (ptrBoolDriver.Valuer (some true) = none ∧
        GovGo.Value.Value ptrBoolDriver (GovGo.Filled (some true)) = (some true, none) ∧
        ValueGo.Value.Value ptrBoolDriver (ValueGo.From (some true)) = (some true, none)) :=
  ⟨⟨rfl, (C14_Value nullBoolDriver { V := true, Valid := true }).2.1 (some true, none) rfl,
      (C14_Value nullBoolDriver { V := true, Valid := true }).2.2.2.2.1 (some true, none) rfl⟩,
    ⟨rfl, (C14_Value ptrBoolDriver (some true)).2.2.1 rfl,
      (C14_Value ptrBoolDriver (some true)).2.2.2.2.2 rfl⟩⟩

/-! ### C15: `Set` and `SetPtr` of `value.go` -/

/-- C15: in `value.go`, for every container `c`, whatever its state, and every
`x`, after `c.Set(x)` the state is Present, `IsSet()` is true, `IsNull()` and
`IsZero()` are false and `Get()` returns `(x, true)`; `SetPtr(p)` is `Set(*p)`
when `p` is non-nil and `Null()` when `p` is nil. -/
theorem C15_Set_SetPtr [Inhabited T] (c : ValueGo.Value T) (x : T) :
    (c.Set x).state = ValueGo.StateValue ∧
      (c.Set x).value = x ∧
      (c.Set x).IsSet = true ∧
      (c.Set x).IsNull = false ∧
      (c.Set x).IsZero = false ∧
      (c.Set x).Get = (x, true) ∧
      c.SetPtr (some x) = c.Set x ∧
      c.SetPtr none = c.Null :=
  ⟨rfl, rfl, rfl, rfl, rfl, rfl, rfl, rfl⟩

/-! ### C16: the zero-initialised container -/

/-- C16: in both designs the zero-initialised container has state Absent and the
zero payload, equals the result of the Absent constructor (`None()`,
`EmptyValue()`) and reports `IsZero() = true`; in `value.go` `Valid()`,
`IsNull()` and `IsSet()` are false on it, and in `gov.go` `Present()`,
`Filled()` and `Nil()` are false on it. -/
theorem C16_zero_initialised [Inhabited T] :
    (default : GovGo.Value T).state = GovGo.StateNone ∧
      (default : GovGo.Value T).value = default ∧
      (default : GovGo.Value T) = GovGo.None ∧
      (default : GovGo.Value T).IsZero = true ∧
      (default : GovGo.Value T).Present = false ∧
      (default : GovGo.Value T).Filled = false ∧
      (default : GovGo.Value T).Nil = false ∧
      (default : ValueGo.Value T).state = ValueGo.StateNotSet ∧
      (default : ValueGo.Value T).value = default ∧
      (default : ValueGo.Value T) = ValueGo.EmptyValue ∧
      (default : ValueGo.Value T).IsZero = true ∧
      (default : ValueGo.Value T).Valid = false ∧
      (default : ValueGo.Value T).IsNull = false ∧
      (default : ValueGo.Value T).IsSet = false :=
  ⟨rfl, rfl, rfl, rfl, rfl, rfl, rfl, rfl, rfl, rfl, rfl, rfl, rfl, rfl⟩

/-! ### C17: the state invariant of `value.go` -/

/-- C17, as stated, fails: `State` is a `uint8` and `FromPtr` and
`FromCondition` store the state they are given, so `FromPtr(nil, State(7))` and
`FromCondition(false, v, State(7))`, followed by no call at all, are containers
whose state is none of the three constants: `IsZero()`, `IsNull()` and `IsSet()`
are all false on them, and `Valid()` is false although `IsZero()` is false. -/
theorem C17_unnamed_state_reachable :
    ValueGo.runCalls ptrBoolEngine ptrBoolDriver []
        (ValueGo.Ctor.build (ValueGo.Ctor.FromPtr none 7))
      = some { state := 7, value := none } ∧
      ValueGo.runCalls ptrBoolEngine ptrBoolDriver []
        (ValueGo.Ctor.build (ValueGo.Ctor.FromCondition false (some true) [7]))
      = some { state := 7, value := none } ∧
      ¬ ValueGo.State.Named 7 ∧
      (ValueGo.FromPtr none 7 : ValueGo.Value (Option Bool)).IsZero = false ∧
      (ValueGo.FromPtr none 7 : ValueGo.Value (Option Bool)).IsNull = false ∧
      (ValueGo.FromPtr none 7 : ValueGo.Value (Option Bool)).IsSet = false ∧
      (ValueGo.FromPtr none 7 : ValueGo.Value (Option Bool)).Valid = false ∧
      (ValueGo.FromPtr none 7 : ValueGo.Value (Option Bool)).Valid
        ≠ (!(ValueGo.FromPtr none 7 : ValueGo.Value (Option Bool)).IsZero) := by
  decide

/-- C17, amended: in `value.go`, every container obtained from a public
constructor with arbitrary arguments, followed by any sequence of `Set`,
`SetPtr`, `Null`, `Reset`, `Scan` and `UnmarshalJSON` calls in which every
`Scan` and `UnmarshalJSON` returned no error, has a state that is one of
`StateNotSet`, `StateNull`, `StateValue`, with exactly one of `IsZero()`,
`IsNull()`, `IsSet()` true and `Valid()` the negation of `IsZero()`, provided
the sequence has at least one call or the state the constructor stores is one
of the three constants.  The only containers left out are those returned by
`FromPtr(nil, s)` and `FromCondition(false, v, s, ...)` with `s` none of the
three constants and no call after the constructor. -/
theorem C17_state_invariant [Inhabited T] {S D : Type} (eng : JSONEngine T)
    (drv : DriverLayer T S D) (k : ValueGo.Ctor T) (calls : List (ValueGo.Call T S))
    (c : ValueGo.Value T) (h : calls ≠ [] ∨ k.StoresNamedState)
    (hr : ValueGo.runCalls eng drv calls k.build = some c) :
    (c.state = ValueGo.StateNotSet ∨ c.state = ValueGo.StateNull ∨
        c.state = ValueGo.StateValue) ∧
      ((c.IsZero = true ∧ c.IsNull = false ∧ c.IsSet = false) ∨
        (c.IsZero = false ∧ c.IsNull = true ∧ c.IsSet = false) ∨
        (c.IsZero = false ∧ c.IsNull = false ∧ c.IsSet = true)) ∧
      c.Valid = (!c.IsZero) := by
  have hn : c.state.Named := by
    rcases h with hne | hk
    · exact ValueGo.named_runCalls_of_ne_nil eng drv calls k.build c hne hr
    · exact ValueGo.named_runCalls eng drv calls k.build c
        ((ValueGo.named_build_iff k).mpr hk) hr
  refine ⟨hn, ?_⟩
  obtain ⟨st, x⟩ := c
  simp only [ValueGo.Value.IsZero, ValueGo.Value.IsNull, ValueGo.Value.IsSet,
    ValueGo.Value.Valid]
  have hn0 : st = ValueGo.StateNotSet ∨ st = ValueGo.StateNull ∨ st = ValueGo.StateValue := hn
  rcases hn0 with h | h | h <;> subst h <;> decide

/-- C17, amended, at concrete inputs at `T = *bool`.  First
`FromPtr(nil, State(7))` followed by `Set`, a successful `Scan`, a successful
`UnmarshalJSON`, `Reset` and `SetPtr(nil)`, which ends in state Null although
the constructor stored an unnamed state.  Then `FromPtr(&true, State(7))` and
`FromCondition(false, &true, StateNull, State(7))` followed by no call: neither
stores the `7`, and they are Present and Null. -/
theorem C17_state_invariant_witness :
    (ValueGo.runCalls ptrBoolEngine ptrBoolDriver
          [ValueGo.Call.Set (some false), ValueGo.Call.Scan (some (ScanSource.int64 1)),
            ValueGo.Call.UnmarshalJSON jsonFalse, ValueGo.Call.Reset, ValueGo.Call.SetPtr none]
          (ValueGo.Ctor.build (ValueGo.Ctor.FromPtr none 7))
        = some { state := ValueGo.StateNull, value := some false } ∧
      ((({ state := ValueGo.StateNull, value := some false } : ValueGo.Value (Option Bool)).state = ValueGo.StateNotSet ∨ ({ state := ValueGo.StateNull, value := some false } : ValueGo.Value (Option Bool)).state = ValueGo.StateNull ∨
          ({ state := ValueGo.StateNull, value := some false } : ValueGo.Value (Option Bool)).state = ValueGo.StateValue) ∧
        ((({ state := ValueGo.StateNull, value := some false } : ValueGo.Value (Option Bool)).IsZero = true ∧ ({ state := ValueGo.StateNull, value := some false } : ValueGo.Value (Option Bool)).IsNull = false ∧ ({ state := ValueGo.StateNull, value := some false } : ValueGo.Value (Option Bool)).IsSet = false) ∨
          (({ state := ValueGo.StateNull, value := some false } : ValueGo.Value (Option Bool)).IsZero = false ∧ ({ state := ValueGo.StateNull, value := some false } : ValueGo.Value (Option Bool)).IsNull = true ∧ ({ state := ValueGo.StateNull, value := some false } : ValueGo.Value (Option Bool)).IsSet = false) ∨
          (({ state := ValueGo.StateNull, value := some false } : ValueGo.Value (Option Bool)).IsZero = false ∧ ({ state := ValueGo.StateNull, value := some false } : ValueGo.Value (Option Bool)).IsNull = false ∧ ({ state := ValueGo.StateNull, value := some false } : ValueGo.Value (Option Bool)).IsSet = true)) ∧
        ({ state := ValueGo.StateNull, value := some false } : ValueGo.Value (Option Bool)).Valid = (!({ state := ValueGo.StateNull, value := some false } : ValueGo.Value (Option Bool)).IsZero))) ∧
    (ValueGo.Ctor.StoresNamedState
        (ValueGo.Ctor.FromPtr (some true) 7 : ValueGo.Ctor (Option Bool)) ∧
      ValueGo.runCalls ptrBoolEngine ptrBoolDriver []
          (ValueGo.Ctor.build (ValueGo.Ctor.FromPtr (some true) 7))
        = some { state := ValueGo.StateValue, value := some true } ∧
      ((({ state := ValueGo.StateValue, value := some true } : ValueGo.Value (Option Bool)).state = ValueGo.StateNotSet ∨ ({ state := ValueGo.StateValue, value := some true } : ValueGo.Value (Option Bool)).state = ValueGo.StateNull ∨
          ({ state := ValueGo.StateValue, value := some true } : ValueGo.Value (Option Bool)).state = ValueGo.StateValue) ∧
        ((({ state := ValueGo.StateValue, value := some true } : ValueGo.Value (Option Bool)).IsZero = true ∧ ({ state := ValueGo.StateValue, value := some true } : ValueGo.Value (Option Bool)).IsNull = false ∧ ({ state := ValueGo.StateValue, value := some true } : ValueGo.Value (Option Bool)).IsSet = false) ∨
          (({ state := ValueGo.StateValue, value := some true } : ValueGo.Value (Option Bool)).IsZero = false ∧ ({ state := ValueGo.StateValue, value := some true } : ValueGo.Value (Option Bool)).IsNull = true ∧ ({ state := ValueGo.StateValue, value := some true } : ValueGo.Value (Option Bool)).IsSet = false) ∨
          (({ state := ValueGo.StateValue, value := some true } : ValueGo.Value (Option Bool)).IsZero = false ∧ ({ state := ValueGo.StateValue, value := some true } : ValueGo.Value (Option Bool)).IsNull = false ∧ ({ state := ValueGo.StateValue, value := some true } : ValueGo.Value (Option Bool)).IsSet = true)) ∧
        ({ state := ValueGo.StateValue, value := some true } : ValueGo.Value (Option Bool)).Valid = (!({ state := ValueGo.StateValue, value := some true } : ValueGo.Value (Option Bool)).IsZero))) ∧
    (ValueGo.Ctor.StoresNamedState
        (ValueGo.Ctor.FromCondition false (some true) [ValueGo.StateNull, 7]) ∧
      ValueGo.runCalls ptrBoolEngine ptrBoolDriver []
          (ValueGo.Ctor.build
            (ValueGo.Ctor.FromCondition false (some true) [ValueGo.StateNull, 7]))
        = some { state := ValueGo.StateNull, value := none } ∧
      ((({ state := ValueGo.StateNull, value := none } : ValueGo.Value (Option Bool)).state = ValueGo.StateNotSet ∨ ({ state := ValueGo.StateNull, value := none } : ValueGo.Value (Option Bool)).state = ValueGo.StateNull ∨
          ({ state := ValueGo.StateNull, value := none } : ValueGo.Value (Option Bool)).state = ValueGo.StateValue) ∧
        ((({ state := ValueGo.StateNull, value := none } : ValueGo.Value (Option Bool)).IsZero = true ∧ ({ state := ValueGo.StateNull, value := none } : ValueGo.Value (Option Bool)).IsNull = false ∧ ({ state := ValueGo.StateNull, value := none } : ValueGo.Value (Option Bool)).IsSet = false) ∨
          (({ state := ValueGo.StateNull, value := none } : ValueGo.Value (Option Bool)).IsZero = false ∧ ({ state := ValueGo.StateNull, value := none } : ValueGo.Value (Option Bool)).IsNull = true ∧ ({ state := ValueGo.StateNull, value := none } : ValueGo.Value (Option Bool)).IsSet = false) ∨
          (({ state := ValueGo.StateNull, value := none } : ValueGo.Value (Option Bool)).IsZero = false ∧ ({ state := ValueGo.StateNull, value := none } : ValueGo.Value (Option Bool)).IsNull = false ∧ ({ state := ValueGo.StateNull, value := none } : ValueGo.Value (Option Bool)).IsSet = true)) ∧
        ({ state := ValueGo.StateNull, value := none } : ValueGo.Value (Option Bool)).Valid = (!({ state := ValueGo.StateNull, value := none } : ValueGo.Value (Option Bool)).IsZero))) :=
  ⟨⟨by decide,
      C17_state_invariant ptrBoolEngine ptrBoolDriver (ValueGo.Ctor.FromPtr none 7)
        [ValueGo.Call.Set (some false), ValueGo.Call.Scan (some (ScanSource.int64 1)),
          ValueGo.Call.UnmarshalJSON jsonFalse, ValueGo.Call.Reset, ValueGo.Call.SetPtr none]
        { state := ValueGo.StateNull, value := some false }
        (Or.inl (List.cons_ne_nil _ _)) (by decide)⟩,
    ⟨trivial, by decide,
      C17_state_invariant ptrBoolEngine ptrBoolDriver (ValueGo.Ctor.FromPtr (some true) 7) []
        { state := ValueGo.StateValue, value := some true } (Or.inr trivial) (by decide)⟩,
    ⟨Or.inr (Or.inl rfl), by decide,
      C17_state_invariant ptrBoolEngine ptrBoolDriver
        (ValueGo.Ctor.FromCondition false (some true) [ValueGo.StateNull, 7]) []
        { state := ValueGo.StateNull, value := none } (Or.inr (Or.inr (Or.inl rfl)))
        (by decide)⟩⟩

/-! ### C18: a failed decode in `value.go` -/

/-- C18: in `value.go`, when `UnmarshalJSON` is given bytes other than `null`
and the engine's decoder fails with `err`, leaving `w` in the target, the error
`err` is returned and the container is left in state Present holding `w`,
whatever its prior state: `IsSet()` is true and `Get()` returns `(w, true)`. -/
theorem C18_failed_decode_sets_state [Inhabited T] (eng : JSONEngine T) (c : ValueGo.Value T)
    (data : Bytes) (w : T) (err : Error) (hd : data ≠ [110, 117, 108, 108])
    (he : eng.Unmarshal data c.value = (w, some err)) :
    c.UnmarshalJSON eng data = ({ state := ValueGo.StateValue, value := w }, some err) ∧
      (c.UnmarshalJSON eng data).2 = some err ∧
      (c.UnmarshalJSON eng data).1.state = ValueGo.StateValue ∧
      (c.UnmarshalJSON eng data).1.IsSet = true ∧
      (c.UnmarshalJSON eng data).1.Get = (w, true) := by
  have h : c.UnmarshalJSON eng data = ({ state := ValueGo.StateValue, value := w }, some err) := by
    rw [ValueGo.unmarshal_of_not_null eng c data hd, he]
    rfl
  rw [h]
  exact ⟨rfl, rfl, rfl, rfl, rfl⟩

/-- C18 at a concrete input: the engine for `*bool` rejects the one-byte text
`x`; the Absent container is left Present holding the nil pointer. -/
theorem C18_failed_decode_sets_state_witness :
    ([120] : Bytes) ≠ [110, 117, 108, 108] ∧
      ptrBoolEngine.Unmarshal [120] none = (none, some "invalid character") ∧
      ((ValueGo.EmptyValue : ValueGo.Value (Option Bool)).UnmarshalJSON ptrBoolEngine [120]
          = ({ state := ValueGo.StateValue, value := none }, some "invalid character") ∧
        ((ValueGo.EmptyValue : ValueGo.Value (Option Bool)).UnmarshalJSON ptrBoolEngine [120]).2
          = some "invalid character" ∧
        ((ValueGo.EmptyValue : ValueGo.Value (Option Bool)).UnmarshalJSON ptrBoolEngine
          [120]).1.state = ValueGo.StateValue ∧
        ((ValueGo.EmptyValue : ValueGo.Value (Option Bool)).UnmarshalJSON ptrBoolEngine
          [120]).1.IsSet = true ∧
        ((ValueGo.EmptyValue : ValueGo.Value (Option Bool)).UnmarshalJSON ptrBoolEngine
          [120]).1.Get = (none, true)) :=
  ⟨by decide, rfl,
    C18_failed_decode_sets_state ptrBoolEngine ValueGo.EmptyValue [120] none
      "invalid character" (by decide) rfl⟩

/-! ### C19: errors leave the container alone -/

/-- C19: in both designs, whenever `Scan` returns an error the container
afterwards is the container before the call (state and stored value); and in
`gov.go`, whenever `UnmarshalJSON` returns an error the state afterwards is the
state before the call. -/
theorem C19_error_atomicity {S D : Type} (eng : JSONEngine T) (drv : DriverLayer T S D)
    (g : GovGo.Value T) (c : ValueGo.Value T) (src : Option S) (data : Bytes) :
    ((g.Scan drv src).2 ≠ none → (g.Scan drv src).1 = g) ∧
      ((c.Scan drv src).2 ≠ none → (c.Scan drv src).1 = c) ∧
      ((g.UnmarshalJSON eng data).2 ≠ none →
        (g.UnmarshalJSON eng data).1.state = g.state) := by
  refine ⟨?_, ?_, ?_⟩
  · cases src with
    | none => intro h; exact absurd rfl h
    | some x =>
      rcases hx : drv.NullScan x with ⟨⟨w, valid⟩, _ | err⟩
      · cases valid <;> simp [GovGo.Value.Scan, hx]
      · simp [GovGo.Value.Scan, hx]
  · cases src with
    | none => intro h; exact absurd rfl h
    | some x =>
      rcases hx : drv.NullScan x with ⟨⟨w, valid⟩, _ | err⟩
      · cases valid <;> simp [ValueGo.Value.Scan, hx]
      · simp [ValueGo.Value.Scan, hx]
  · by_cases hd : data = GovGo.nullValue
    · simp [GovGo.Value.UnmarshalJSON, hd]
    · rcases hx : eng.Unmarshal data g.value with ⟨w, _ | err⟩ <;>
        simp [GovGo.Value.UnmarshalJSON, hd, hx]

/-- C19 at concrete inputs: the driver for `*bool` rejects the source
`int64(5)`, and the engine for `*bool` rejects the text `x`; the Present
containers holding a pointer to `true` are left as they were. -/
theorem C19_error_atomicity_witness :
    ((GovGo.Filled (some true)).Scan ptrBoolDriver (some (ScanSource.int64 5))).2 ≠ none ∧
      ((GovGo.Filled (some true)).Scan ptrBoolDriver (some (ScanSource.int64 5))).1
        = GovGo.Filled (some true) ∧
      ((ValueGo.From (some true)).Scan ptrBoolDriver (some (ScanSource.int64 5))).2 ≠ none ∧
      ((ValueGo.From (some true)).Scan ptrBoolDriver (some (ScanSource.int64 5))).1
        = ValueGo.From (some true) ∧
      ((GovGo.Filled (some true)).UnmarshalJSON ptrBoolEngine [120]).2 ≠ none ∧
      ((GovGo.Filled (some true)).UnmarshalJSON ptrBoolEngine [120]).1.state
        = GovGo.StateFilled :=
  ⟨by decide,
    (C19_error_atomicity ptrBoolEngine ptrBoolDriver (GovGo.Filled (some true))
      (ValueGo.From (some true)) (some (ScanSource.int64 5)) [120]).1 (by decide),
    by decide,
    (C19_error_atomicity ptrBoolEngine ptrBoolDriver (GovGo.Filled (some true))
      (ValueGo.From (some true)) (some (ScanSource.int64 5)) [120]).2.1 (by decide),
    by decide,
    (C19_error_atomicity ptrBoolEngine ptrBoolDriver (GovGo.Filled (some true))
      (ValueGo.From (some true)) (some (ScanSource.int64 5)) [120]).2.2 (by decide)⟩

/-! ### C20: `Value` on an Absent container -/

/-- C20: in both designs, `Value()` on an Absent container returns exactly what
it returns on the Present container holding the same payload: for the freshly
constructed Absent container the conversion of the zero value of `T`, and in
`value.go` after `Set(x)` then `Reset()` the conversion of `x`.  On every
container, `Value()` is `(nil, nil)` when the state is Null and is otherwise the
result on the Present container with the same payload. -/
theorem C20_Value_absent [Inhabited T] {S D : Type} (drv : DriverLayer T S D) (x : T)
    (g : GovGo.Value T) (c : ValueGo.Value T) :
    GovGo.Value.Value drv { state := GovGo.StateNone, value := x }
        = GovGo.Value.Value drv (GovGo.Filled x) ∧
      GovGo.Value.Value drv (GovGo.None : GovGo.Value T)
        = GovGo.Value.Value drv (GovGo.Filled default) ∧
      GovGo.Value.Value drv (GovGo.None : GovGo.Value T)
        = (match drv.Valuer default with
          | some r => r
          | none => drv.ConvertValue default) ∧
      g.Value drv
        = (if g.state = GovGo.StateNil then (none, none)
          else GovGo.Value.Value drv (GovGo.Filled g.value)) ∧
      ValueGo.Value.Value drv { state := ValueGo.StateNotSet, value := x }
        = ValueGo.Value.Value drv (ValueGo.From x) ∧
      ValueGo.Value.Value drv (ValueGo.EmptyValue : ValueGo.Value T)
        = ValueGo.Value.Value drv (ValueGo.From default) ∧
      ValueGo.Value.Value drv (ValueGo.EmptyValue : ValueGo.Value T)
        = (match drv.Valuer default with
          | some r => r
          | none => drv.ConvertValue default) ∧
      ValueGo.Value.Value drv (c.Set x).Reset = ValueGo.Value.Value drv (ValueGo.From x) ∧
      (c.Set x).Reset.state = ValueGo.StateNotSet ∧
      c.Value drv
        = (if c.state = ValueGo.StateNull then (none, none)
          else ValueGo.Value.Value drv (ValueGo.From c.value)) := by
  refine ⟨rfl, rfl, rfl, ?_, rfl, rfl, rfl, rfl, rfl, ?_⟩
  · by_cases h : g.state = GovGo.StateNil
    · simp [GovGo.Value.Value, GovGo.Value.Nil, h]
    · have h21 : GovGo.StateFilled ≠ GovGo.StateNil := by decide
      simp [GovGo.Value.Value, GovGo.Value.Nil, GovGo.Filled, h, h21]
  · by_cases h : c.state = ValueGo.StateNull
    · simp [ValueGo.Value.Value, ValueGo.Value.IsNull, h]
    · have h21 : ValueGo.StateValue ≠ ValueGo.StateNull := by decide
      simp [ValueGo.Value.Value, ValueGo.Value.IsNull, ValueGo.From, h, h21]

end Claims
